import Mathlib

/-!
Shallow embedding of the Rufus real-time drive monitoring and USB health
prediction subsystem (src/realtime_monitor.c, src/usb_health_predictor.c).

C `float` arithmetic is modelled as exact rational arithmetic (`ℚ`);
C fixed-capacity arrays with a count are modelled as lists whose length is
bounded by the capacity checks the code performs; the `g_monitor_initialized`
guard is modelled by working only with post-initialization states.
-/

namespace RufusMonitor

/-- The nine metric kinds of `monitor_metric_t` (usb_health_predictor.h,
`MONITOR_METRIC_TEMPERATURE` .. `MONITOR_METRIC_SECTOR_HEALTH`). -/
inductive monitor_metric_t where
  | temperature
  | read_speed
  | write_speed
  | error_rate
  | power_consumption
  | vibration
  | electromagnetic
  | capacity_usage
  | sector_health
deriving DecidableEq, Repr

/-- `MONITOR_MAX_DRIVES` (usb_health_predictor.h line 111). -/
def MONITOR_MAX_DRIVES : ℕ := 16

/-- `MONITOR_METRIC_MAX`: number of metric kinds. -/
def MONITOR_METRIC_MAX : ℕ := 9

/-- The fields of `monitor_config_t` that the modelled operations read.
String/file and enable-flag fields are carried for fidelity but the
aggregation model takes sampled values as inputs directly. -/
structure monitor_config_t where
  enable_temperature_monitoring : Bool
  enable_speed_monitoring : Bool
  enable_error_monitoring : Bool
  enable_power_monitoring : Bool
  enable_vibration_monitoring : Bool
  enable_em_monitoring : Bool
  enable_capacity_monitoring : Bool
  enable_sector_monitoring : Bool
  update_interval : ℕ
  warning_threshold : ℚ
  critical_threshold : ℚ
  auto_alert : Bool
  log_to_file : Bool

/-- `drive_monitor_data_t`: one record per monitored drive.  The four
per-metric C arrays are modelled as functions from the metric kind. -/
structure drive_monitor_data_t where
  drive_path : String
  drive_name : String
  is_monitoring : Bool
  is_healthy : Bool
  current_metrics : monitor_metric_t → ℚ
  average_metrics : monitor_metric_t → ℚ
  max_metrics : monitor_metric_t → ℚ
  min_metrics : monitor_metric_t → ℚ
  last_update : ℕ
  error_count : ℕ
  warning_count : ℕ
  data_points : ℕ

/-- `monitor_alert_t`. -/
structure monitor_alert_t where
  drive_path : String
  metric : monitor_metric_t
  current_value : ℚ
  threshold_value : ℚ
  alert_message : String
  timestamp : ℕ
  is_critical : Bool
  is_acknowledged : Bool
deriving DecidableEq, Repr

/-- `monitor_context_t`: the global monitoring state.  `drive_count` and
`alert_count` are the lengths of the lists. -/
structure monitor_context_t where
  drives : List drive_monitor_data_t
  alerts : List monitor_alert_t
  is_monitoring : Bool

/-- The context right after `InitRealTimeMonitor` (memset to zero,
`is_monitoring = FALSE`). -/
def initCtx : monitor_context_t :=
  { drives := [], alerts := [], is_monitoring := false }

/-- The drive record freshly initialized by `StartDriveMonitoring`
(realtime_monitor.c lines 113-127): metrics current/average/max start at
`0.0f`, min starts at the sentinel `1000.0f`. -/
def initDriveData (drive_path : String) (t : ℕ) : drive_monitor_data_t :=
  { drive_path := drive_path
    drive_name := drive_path
    is_monitoring := true
    is_healthy := true
    current_metrics := fun _ => 0
    average_metrics := fun _ => 0
    max_metrics := fun _ => 0
    min_metrics := fun _ => 1000
    last_update := t
    error_count := 0
    warning_count := 0
    data_points := 0 }

/-- The metric-aggregation loop of `UpdateDriveMetrics`
(realtime_monitor.c lines 340-357): for every metric kind, set `current`,
recompute the running average as `(average*data_points + new)/(data_points+1)`,
raise `max` / lower `min` on strict comparison, then increment `data_points`
and stamp `last_update`.  `new_metrics` is the vector of sampled values. -/
def UpdateDriveMetrics (new_metrics : monitor_metric_t → ℚ) (t : ℕ)
    (d : drive_monitor_data_t) : drive_monitor_data_t :=
  { d with
    current_metrics := new_metrics
    average_metrics := fun i =>
      (d.average_metrics i * d.data_points + new_metrics i) / (d.data_points + 1)
    max_metrics := fun i =>
      if new_metrics i > d.max_metrics i then new_metrics i else d.max_metrics i
    min_metrics := fun i =>
      if new_metrics i < d.min_metrics i then new_metrics i else d.min_metrics i
    data_points := d.data_points + 1
    last_update := t }

/-- A sequence of `UpdateDriveMetrics` calls, oldest first. -/
def applyUpdates (vs : List (monitor_metric_t → ℚ)) (d : drive_monitor_data_t) :
    drive_monitor_data_t :=
  vs.foldl (fun acc v => UpdateDriveMetrics v 0 acc) d

/-- `IsDriveBeingMonitored` (realtime_monitor.c lines 187-200): scan the
registry in order and on the FIRST path match return that record's
`is_monitoring` flag; `FALSE` when no record matches. -/
def IsDriveBeingMonitored (ctx : monitor_context_t) (drive_path : String) : Bool :=
  match ctx.drives.find? (fun d => d.drive_path == drive_path) with
  | some d => d.is_monitoring
  | none => false

/-- `StartDriveMonitoring` for a non-NULL path (realtime_monitor.c lines
99-143): succeed at once if `IsDriveBeingMonitored`; fail if the registry is
at `MONITOR_MAX_DRIVES`; otherwise append a freshly initialized record, and
set the engine's `is_monitoring` flag (the thread launch is modelled as the
flag alone, with thread creation assumed to succeed). -/
def StartDriveMonitoring (drive_path : String) (t : ℕ) (ctx : monitor_context_t) :
    Bool × monitor_context_t :=
  if IsDriveBeingMonitored ctx drive_path then (true, ctx)
  else if ctx.drives.length ≥ MONITOR_MAX_DRIVES then (false, ctx)
  else
    let ctx1 : monitor_context_t :=
      { ctx with drives := ctx.drives ++ [initDriveData drive_path t] }
    if ctx1.is_monitoring then (true, ctx1)
    else (true, { ctx1 with is_monitoring := true })

/-- The scan of `StopDriveMonitoring`'s per-drive branch: clear
`is_monitoring` on the first record whose path matches; `none` when no
record matches. -/
def stopFirstMatching : List drive_monitor_data_t → String →
    Option (List drive_monitor_data_t)
  | [], _ => none
  | d :: rest, p =>
    if d.drive_path == p then some ({ d with is_monitoring := false } :: rest)
    else (stopFirstMatching rest p).map (fun l => d :: l)

/-- `StopDriveMonitoring` for a non-NULL path (realtime_monitor.c lines
174-183): deactivate the first matching record and return `TRUE`; return
`FALSE` (touching nothing) when the path is not in the registry. -/
def StopDriveMonitoring (drive_path : String) (ctx : monitor_context_t) :
    Bool × monitor_context_t :=
  match stopFirstMatching ctx.drives drive_path with
  | some ds => (true, { ctx with drives := ds })
  | none => (false, ctx)

/-- `AcknowledgeAlert` (realtime_monitor.c lines 237-245): fail when the
index is out of range; otherwise set that alert's `is_acknowledged`. -/
def AcknowledgeAlert (alert_index : ℕ) (ctx : monitor_context_t) :
    Bool × monitor_context_t :=
  if h : alert_index < ctx.alerts.length then
    (true, { ctx with
      alerts := ctx.alerts.set alert_index
        { ctx.alerts.get ⟨alert_index, h⟩ with is_acknowledged := true } })
  else (false, ctx)

/-- `CreateAlert` (realtime_monitor.c lines 394-427): reject when the log
already holds `MONITOR_MAX_DRIVES * MONITOR_METRIC_MAX` alerts, leaving the
context untouched; otherwise append the new alert (unacknowledged).  The
`auto_alert` notification has no effect on the modelled state. -/
def CreateAlert (drive_path : String) (metric : monitor_metric_t)
    (current_value threshold_value : ℚ) (message : String) (is_critical : Bool)
    (t : ℕ) (ctx : monitor_context_t) : Bool × monitor_context_t :=
  if ctx.alerts.length ≥ MONITOR_MAX_DRIVES * MONITOR_METRIC_MAX then (false, ctx)
  else
    (true, { ctx with alerts := ctx.alerts ++
      [{ drive_path := drive_path
         metric := metric
         current_value := current_value
         threshold_value := threshold_value
         alert_message := message
         timestamp := t
         is_critical := is_critical
         is_acknowledged := false }] })

/-- `GetMetricThreshold` (realtime_monitor.c lines 585-599): static base
threshold per metric kind. -/
def GetMetricThreshold : monitor_metric_t → ℚ
  | .temperature => 60
  | .read_speed => 5
  | .write_speed => 5
  | .error_rate => 1/2
  | .power_consumption => 5
  | .vibration => 3
  | .electromagnetic => 4/5
  | .capacity_usage => 90
  | .sector_health => 80

/-- `IsMetricCritical` (realtime_monitor.c lines 601-606):
`value >= threshold * critical_threshold`. -/
def IsMetricCritical (cfg : monitor_config_t) (metric : monitor_metric_t)
    (value : ℚ) : Bool :=
  decide (GetMetricThreshold metric * cfg.critical_threshold ≤ value)

/-- `IsMetricWarning` (realtime_monitor.c lines 609-613):
`value >= threshold * warning_threshold`. -/
def IsMetricWarning (cfg : monitor_config_t) (metric : monitor_metric_t)
    (value : ℚ) : Bool :=
  decide (GetMetricThreshold metric * cfg.warning_threshold ≤ value)

/-- Alert severity, as decided by `CheckForAlerts`. -/
inductive severity where
  | none
  | warning
  | critical
deriving DecidableEq, Repr

/-- The per-metric decision structure of `CheckForAlerts` (realtime_monitor.c
lines 378-388): a critical alert when `IsMetricCritical`, else a warning
alert when `IsMetricWarning`, else nothing. -/
def EvaluateSeverity (cfg : monitor_config_t) (metric : monitor_metric_t)
    (value : ℚ) : severity :=
  if IsMetricCritical cfg metric value then .critical
  else if IsMetricWarning cfg metric value then .warning
  else .none

/-- `usb_health_metrics_t` (usb_health_predictor.h lines 32-44). -/
structure usb_health_metrics_t where
  total_writes : ℕ
  total_reads : ℕ
  error_count : ℕ
  retry_count : ℕ
  bad_sectors : ℕ
  write_speed_avg : ℚ
  read_speed_avg : ℚ
  temperature_avg : ℚ
  power_cycles : ℕ
  hours_used : ℕ
  timestamp : ℕ
deriving DecidableEq, Repr

/-- `usb_health_prediction_t` (usb_health_predictor.h lines 47-54);
`algorithm_used` is the enum index (`HEALTH_ALGO_NEURAL_NETWORK = 0`). -/
structure usb_health_prediction_t where
  failure_probability : ℚ
  days_remaining : ℕ
  algorithm_used : ℕ
  recommendation : String
  is_critical : Bool
  is_warning : Bool
deriving DecidableEq, Repr

/-- `usb_health_context_t` (usb_health_predictor.h lines 57-65): the
bounded sample history, most recent last; `metrics_count` is the length. -/
structure usb_health_context_t where
  metrics : List usb_health_metrics_t
  drive_serial : ℕ
  drive_model : String
  drive_manufacturer : String
  first_seen : ℕ
  last_updated : ℕ

/-- `HEALTH_CRITICAL_THRESHOLD` = 0.8f. -/
def HEALTH_CRITICAL_THRESHOLD : ℚ := 8/10

/-- `HEALTH_WARNING_THRESHOLD` = 0.6f. -/
def HEALTH_WARNING_THRESHOLD : ℚ := 6/10

/-- `CalculateHealthScore` (usb_health_predictor.c lines 149-192): start at
1.0; subtract 0.3 x error ratio and 0.2 x retry ratio (when
`total_writes > 0`), a flat 0.4 when there are bad sectors, 0.2 when the
mean of the two speeds is below half the nominal 20 MB/s, 0.1 when
`hours_used > 10000`; clamp to [0, 1]. -/
def CalculateHealthScore (m : usb_health_metrics_t) : ℚ :=
  let score : ℚ := 1
  let score := if m.total_writes > 0 then
      score - ((m.error_count : ℚ) / (m.total_writes : ℚ)) * (3/10) else score
  let score := if m.total_writes > 0 then
      score - ((m.retry_count : ℚ) / (m.total_writes : ℚ)) * (2/10) else score
  let score := if m.bad_sectors > 0 then score - 4/10 else score
  let score := if m.write_speed_avg > 0 ∧ m.read_speed_avg > 0 then
      (if (m.write_speed_avg + m.read_speed_avg) / (2 * 20) < 1/2 then
        score - 2/10 else score)
    else score
  let score := if m.hours_used > 10000 then score - 1/10 else score
  let score := if score < 0 then 0 else score
  if score > 1 then 1 else score

/-- `EstimateDaysRemaining` (usb_health_predictor.c lines 195-211): bucket
the health score; divisions are C unsigned integer divisions. -/
def EstimateDaysRemaining (m : usb_health_metrics_t) : ℕ :=
  let health_score := CalculateHealthScore m
  let base_days : ℕ := 365
  if health_score > 8/10 then base_days * 2
  else if health_score > 6/10 then base_days
  else if health_score > 4/10 then base_days / 2
  else if health_score > 2/10 then base_days / 4
  else 30

/-- `PredictUSBHealth` (usb_health_predictor.c lines 84-146) for non-NULL
arguments.  `history` is `none` when `LoadUSBHealthData` fails (no stored
file); `nnPredict` abstracts `PredictWithNeuralNetwork` applied to the
global network (whose weights come from `rand()` and carry no definable
value).  The result is `some prediction` — with non-NULL inputs the C
function always returns `TRUE`. -/
def PredictUSBHealth (nnPredict : usb_health_metrics_t → ℚ)
    (history : Option usb_health_context_t) : Option usb_health_prediction_t :=
  match history with
  | Option.none =>
    some { failure_probability := 1/10
           days_remaining := 365
           algorithm_used := 0
           recommendation := "No historical data available. Drive appears healthy."
           is_critical := false
           is_warning := false }
  | some context =>
    match context.metrics.getLast? with
    | Option.none =>
      some { failure_probability := 1/10
             days_remaining := 365
             algorithm_used := 0
             recommendation := "No metrics available. Drive appears healthy."
             is_critical := false
             is_warning := false }
    | some recent_metrics =>
      let failure_probability := nnPredict recent_metrics
      let is_critical := decide (HEALTH_CRITICAL_THRESHOLD ≤ failure_probability)
      let is_warning := decide (HEALTH_WARNING_THRESHOLD ≤ failure_probability)
      some { failure_probability := failure_probability
             days_remaining := EstimateDaysRemaining recent_metrics
             algorithm_used := 0
             recommendation :=
               if is_critical then
                 "CRITICAL: Drive failure imminent! Backup data immediately and replace drive."
               else if is_warning then
                 "WARNING: Drive showing signs of failure. Consider backing up data soon."
               else if failure_probability > 3/10 then
                 "Drive is aging but still functional. Monitor for further degradation."
               else
                 "Drive is healthy and operating normally."
             is_critical := is_critical
             is_warning := is_warning }

/-! ## Aggregation lemmas -/

theorem applyUpdates_nil (d : drive_monitor_data_t) : applyUpdates [] d = d := rfl

theorem applyUpdates_cons (v : monitor_metric_t → ℚ) (vs : List (monitor_metric_t → ℚ))
    (d : drive_monitor_data_t) :
    applyUpdates (v :: vs) d = applyUpdates vs (UpdateDriveMetrics v 0 d) := rfl

theorem applyUpdates_data_points (vs : List (monitor_metric_t → ℚ))
    (d : drive_monitor_data_t) :
    (applyUpdates vs d).data_points = d.data_points + vs.length := by
  induction vs generalizing d with
  | nil => simp [applyUpdates_nil]
  | cons v vs ih =>
    rw [applyUpdates_cons, ih]
    simp [UpdateDriveMetrics]
    omega

/-- The incremental running mean, in product form: after any update sequence,
`average * (number of samples)` equals the initial weighted sum plus the sum
of the new values. -/
theorem applyUpdates_average_mul (m : monitor_metric_t)
    (vs : List (monitor_metric_t → ℚ)) (d : drive_monitor_data_t) :
    (applyUpdates vs d).average_metrics m * ((d.data_points + vs.length : ℕ) : ℚ) =
      d.average_metrics m * (d.data_points : ℚ) + (vs.map (fun v => v m)).sum := by
  induction vs generalizing d with
  | nil => simp [applyUpdates_nil]
  | cons v vs ih =>
    rw [applyUpdates_cons]
    have hd' : (UpdateDriveMetrics v 0 d).data_points = d.data_points + 1 := rfl
    have hlen : d.data_points + (v :: vs).length =
        (UpdateDriveMetrics v 0 d).data_points + vs.length := by
      rw [hd']; simp; omega
    rw [hlen, ih]
    have havg : (UpdateDriveMetrics v 0 d).average_metrics m =
        (d.average_metrics m * (d.data_points : ℚ) + v m) / ((d.data_points : ℚ) + 1) := rfl
    rw [havg, hd']
    have hne : ((d.data_points : ℚ) + 1) ≠ 0 := by positivity
    push_cast
    rw [div_mul_cancel₀ _ hne]
    simp
    ring

/-- C1: for every sequence of metric updates applied through
`UpdateDriveMetrics` to a freshly initialized device record, the running
mean `average_metrics` of each metric kind equals the exact arithmetic mean
of the sampled values (the empty sequence leaves the mean at `0 = 0/0`,
matching rational division by zero). -/
theorem running_mean_is_arithmetic_mean (drive_path : String) (t : ℕ)
    (vs : List (monitor_metric_t → ℚ)) (m : monitor_metric_t) :
    (applyUpdates vs (initDriveData drive_path t)).average_metrics m =
      (vs.map (fun v => v m)).sum / (vs.length : ℚ) := by
  cases vs with
  | nil => simp [applyUpdates_nil, initDriveData]
  | cons v vs =>
    have h := applyUpdates_average_mul m (v :: vs) (initDriveData drive_path t)
    have h0 : (initDriveData drive_path t).data_points = 0 := rfl
    have ha : (initDriveData drive_path t).average_metrics m = 0 := rfl
    rw [h0, ha] at h
    have hne : (((v :: vs).length : ℕ) : ℚ) ≠ 0 := by
      simp only [List.length_cons]
      push_cast
      positivity
    rw [eq_div_iff hne]
    simpa using h

theorem if_gt_eq_max (a b : ℚ) : (if b > a then b else a) = max a b := by
  rcases le_or_lt b a with h | h
  · rw [if_neg (not_lt.mpr h), max_eq_left h]
  · rw [if_pos h, max_eq_right h.le]

theorem if_lt_eq_min (a b : ℚ) : (if b < a then b else a) = min a b := by
  rcases le_or_lt a b with h | h
  · rw [if_neg (not_lt.mpr h), min_eq_left h]
  · rw [if_pos h, min_eq_right h.le]

theorem applyUpdates_max (m : monitor_metric_t) (vs : List (monitor_metric_t → ℚ))
    (d : drive_monitor_data_t) :
    (applyUpdates vs d).max_metrics m =
      (vs.map (fun v => v m)).foldl max (d.max_metrics m) := by
  induction vs generalizing d with
  | nil => simp [applyUpdates_nil]
  | cons v vs ih =>
    rw [applyUpdates_cons, ih]
    have hmax : (UpdateDriveMetrics v 0 d).max_metrics m =
        max (d.max_metrics m) (v m) := if_gt_eq_max _ _
    rw [hmax]
    rfl

theorem applyUpdates_min (m : monitor_metric_t) (vs : List (monitor_metric_t → ℚ))
    (d : drive_monitor_data_t) :
    (applyUpdates vs d).min_metrics m =
      (vs.map (fun v => v m)).foldl min (d.min_metrics m) := by
  induction vs generalizing d with
  | nil => simp [applyUpdates_nil]
  | cons v vs ih =>
    rw [applyUpdates_cons, ih]
    have hmin : (UpdateDriveMetrics v 0 d).min_metrics m =
        min (d.min_metrics m) (v m) := if_lt_eq_min _ _
    rw [hmin]
    rfl

/-- C2 counterexample: `StartDriveMonitoring` seeds `max_metrics` with the
sentinel `0.0` and `min_metrics` with the sentinel `1000.0`, so a single
update with value `2000` leaves `min = 1000 ≠ min(v1) = 2000`, and a single
update with value `-1` leaves `max = 0 ≠ max(v1) = -1`: the first sample does
NOT seed min/max with the value itself. -/
theorem max_min_seed_counterexample :
    (applyUpdates [fun _ => (2000 : ℚ)] (initDriveData "D" 0)).min_metrics
        monitor_metric_t.temperature ≠ 2000 ∧
    (applyUpdates [fun _ => (-1 : ℚ)] (initDriveData "D" 0)).max_metrics
        monitor_metric_t.temperature ≠ -1 := by
  constructor <;> decide

/-- C2 amended: after any update sequence on a freshly initialized record,
the stored max equals the maximum of the sentinel seed `0` together with the
sampled values, and the stored min equals the minimum of the sentinel seed
`1000` together with the sampled values (hence they equal
`max(v1..vn)` / `min(v1..vn)` exactly only when those extremes are not
masked by the sentinels). -/
theorem max_min_with_sentinel_seeds (drive_path : String) (t : ℕ)
    (vs : List (monitor_metric_t → ℚ)) (m : monitor_metric_t) :
    (applyUpdates vs (initDriveData drive_path t)).max_metrics m =
      (vs.map (fun v => v m)).foldl max 0 ∧
    (applyUpdates vs (initDriveData drive_path t)).min_metrics m =
      (vs.map (fun v => v m)).foldl min 1000 := by
  constructor
  · exact applyUpdates_max m vs (initDriveData drive_path t)
  · exact applyUpdates_min m vs (initDriveData drive_path t)

/-! ## Registry lifecycle -/

/-- C3 counterexample: start drive "A", stop it, then start it again.  After
the stop, "A" is the only identifier in the registry (present but
deactivated); the second `StartDriveMonitoring "A"` nevertheless allocates a
SECOND record for it, growing the registry from 1 to 2 — because
`IsDriveBeingMonitored` reports a stopped record as not monitored and the
start path never searches for an existing inactive record. -/
theorem duplicate_record_counterexample :
    ((StopDriveMonitoring "A" (StartDriveMonitoring "A" 0 initCtx).2).2.drives.map
        (fun d => d.drive_path)) = ["A"] ∧
    (StartDriveMonitoring "A" 0
        (StopDriveMonitoring "A" (StartDriveMonitoring "A" 0 initCtx).2).2).2.drives.length
      = 2 := by
  constructor
  · rfl
  · rfl

/-- C3 amended: `StartDriveMonitoring` allocates no record and succeeds with
the state unchanged exactly when the first registry record matching the
identifier is currently active; when the identifier is NOT reported as
actively monitored (unknown, or present but stopped) and the registry is
below capacity, the call appends a fresh record — so a previously stopped
identifier receives a duplicate record and the registry count grows. -/
theorem start_monitoring_allocation (ctx : monitor_context_t) (p : String) (t : ℕ) :
    (IsDriveBeingMonitored ctx p = true → StartDriveMonitoring p t ctx = (true, ctx)) ∧
    (IsDriveBeingMonitored ctx p = false → ctx.drives.length < MONITOR_MAX_DRIVES →
      (StartDriveMonitoring p t ctx).1 = true ∧
      (StartDriveMonitoring p t ctx).2.drives = ctx.drives ++ [initDriveData p t]) := by
  constructor
  · intro h
    simp [StartDriveMonitoring, h]
  · intro h hlen
    simp only [StartDriveMonitoring, h, Bool.false_eq_true, if_false,
      not_le.mpr hlen, if_neg (not_le.mpr hlen)]
    by_cases hm : ctx.is_monitoring <;> simp [hm]

/-- Witness for `start_monitoring_allocation`, at the states reached in the
start/stop/start scenario: the no-allocation branch fires on the context
where "A" is active, and the allocation branch fires on the context where
"A" has been stopped. -/
theorem start_monitoring_allocation_witness :
    StartDriveMonitoring "A" 0 (StartDriveMonitoring "A" 0 initCtx).2 =
      (true, (StartDriveMonitoring "A" 0 initCtx).2) ∧
    (StartDriveMonitoring "A" 0
        (StopDriveMonitoring "A" (StartDriveMonitoring "A" 0 initCtx).2).2).2.drives =
      (StopDriveMonitoring "A" (StartDriveMonitoring "A" 0 initCtx).2).2.drives ++
        [initDriveData "A" 0] :=
  ⟨(start_monitoring_allocation (StartDriveMonitoring "A" 0 initCtx).2 "A" 0).1 rfl,
   ((start_monitoring_allocation
      (StopDriveMonitoring "A" (StartDriveMonitoring "A" 0 initCtx).2).2 "A" 0).2
      rfl (by decide)).2⟩

/-! ## Capacity errors -/

/-- A concrete alert, used to build full-log witness states. -/
def sampleAlert : monitor_alert_t :=
  { drive_path := "A"
    metric := monitor_metric_t.temperature
    current_value := 70
    threshold_value := 60
    alert_message := "Critical threshold exceeded"
    timestamp := 0
    is_critical := true
    is_acknowledged := false }

/-- A context whose alert log is exactly at capacity. -/
def fullAlertCtx : monitor_context_t :=
  { drives := [], alerts := List.replicate 144 sampleAlert, is_monitoring := false }

/-- A context whose device registry is exactly at capacity, holding sixteen
records for drive "A". -/
def fullRegistryCtx : monitor_context_t :=
  { drives := List.replicate 16 (initDriveData "A" 0)
    alerts := []
    is_monitoring := true }

/-- C4: the alert log capacity is `MONITOR_MAX_DRIVES * MONITOR_METRIC_MAX
= 16 * 9 = 144`, and once the alert count has reached it, `CreateAlert`
fails and returns the context completely unchanged — same alert count, same
stored alerts, no eviction. -/
theorem alert_log_full_rejects (ctx : monitor_context_t) (p : String)
    (metric : monitor_metric_t) (v thr : ℚ) (msg : String) (crit : Bool) (t : ℕ)
    (h : MONITOR_MAX_DRIVES * MONITOR_METRIC_MAX ≤ ctx.alerts.length) :
    MONITOR_MAX_DRIVES * MONITOR_METRIC_MAX = 144 ∧
    CreateAlert p metric v thr msg crit t ctx = (false, ctx) := by
  refine ⟨by decide, ?_⟩
  simp [CreateAlert, h]

/-- Witness for `alert_log_full_rejects` on a log holding 144 alerts. -/
theorem alert_log_full_rejects_witness :
    MONITOR_MAX_DRIVES * MONITOR_METRIC_MAX = 144 ∧
    CreateAlert "B" monitor_metric_t.read_speed 1 5 "Warning threshold exceeded"
      false 3 fullAlertCtx = (false, fullAlertCtx) :=
  alert_log_full_rejects fullAlertCtx "B" monitor_metric_t.read_speed 1 5
    "Warning threshold exceeded" false 3
    (by simp [fullAlertCtx, MONITOR_MAX_DRIVES, MONITOR_METRIC_MAX])

/-- C5: when the registry has reached `MONITOR_MAX_DRIVES = 16` records,
`StartDriveMonitoring` of an identifier not present in the registry fails
and returns the context completely unchanged — every existing record and
the registry count are untouched. -/
theorem registry_full_rejects (ctx : monitor_context_t) (p : String) (t : ℕ)
    (hfull : MONITOR_MAX_DRIVES ≤ ctx.drives.length)
    (habsent : ∀ d ∈ ctx.drives, d.drive_path ≠ p) :
    StartDriveMonitoring p t ctx = (false, ctx) := by
  have hmon : IsDriveBeingMonitored ctx p = false := by
    unfold IsDriveBeingMonitored
    have hnone : ctx.drives.find? (fun d => d.drive_path == p) = none := by
      rw [List.find?_eq_none]
      intro d hd
      simpa using habsent d hd
    rw [hnone]
  simp [StartDriveMonitoring, hmon, hfull]

/-- Witness for `registry_full_rejects` on a 16-record registry and the
absent identifier "B". -/
theorem registry_full_rejects_witness :
    StartDriveMonitoring "B" 0 fullRegistryCtx = (false, fullRegistryCtx) :=
  registry_full_rejects fullRegistryCtx "B" 0
    (by simp [fullRegistryCtx, MONITOR_MAX_DRIVES])
    (by
      intro d hd
      simp only [fullRegistryCtx] at hd
      rw [List.eq_of_mem_replicate hd]
      decide)

/-! ## Threshold policy -/

/-- The default configuration installed by `InitRealTimeMonitor` when called
with `NULL` (realtime_monitor.c lines 26-40): warning multiplier
`MONITOR_ALERT_THRESHOLD = 0.8f`, critical multiplier
`MONITOR_CRITICAL_THRESHOLD = 0.9f`. -/
def defaultMonitorConfig : monitor_config_t :=
  { enable_temperature_monitoring := true
    enable_speed_monitoring := true
    enable_error_monitoring := true
    enable_power_monitoring := true
    enable_vibration_monitoring := false
    enable_em_monitoring := false
    enable_capacity_monitoring := true
    enable_sector_monitoring := true
    update_interval := 1000
    warning_threshold := 8/10
    critical_threshold := 9/10
    auto_alert := true
    log_to_file := false }

theorem GetMetricThreshold_nonneg (m : monitor_metric_t) :
    0 ≤ GetMetricThreshold m := by
  cases m <;> norm_num [GetMetricThreshold]

/-- C6: severity evaluation is a pure deterministic function of the metric
kind, the value and the configured multipliers; a value exactly equal to
`base * critical_threshold` evaluates as critical; and — whenever the
warning multiplier does not exceed the critical multiplier, as in every
shipped configuration — a value strictly below `base * warning_threshold`
evaluates as none. -/
theorem threshold_policy_evaluation (cfg cfg' : monitor_config_t)
    (m : monitor_metric_t) (v v' : ℚ) :
    (cfg = cfg' → v = v' → EvaluateSeverity cfg m v = EvaluateSeverity cfg' m v') ∧
    EvaluateSeverity cfg m (GetMetricThreshold m * cfg.critical_threshold) =
      severity.critical ∧
    (cfg.warning_threshold ≤ cfg.critical_threshold →
      v < GetMetricThreshold m * cfg.warning_threshold →
      EvaluateSeverity cfg m v = severity.none) := by
  refine ⟨?_, ?_, ?_⟩
  · intro hc hv
    rw [hc, hv]
  · simp [EvaluateSeverity, IsMetricCritical]
  · intro hwc hv
    have hwarn : ¬ (GetMetricThreshold m * cfg.warning_threshold ≤ v) :=
      not_le.mpr hv
    have hcrit : ¬ (GetMetricThreshold m * cfg.critical_threshold ≤ v) := by
      refine not_le.mpr (lt_of_lt_of_le hv ?_)
      exact mul_le_mul_of_nonneg_left hwc (GetMetricThreshold_nonneg m)
    simp [EvaluateSeverity, IsMetricCritical, IsMetricWarning, hwarn, hcrit]

/-- Witness for `threshold_policy_evaluation` at the default configuration
and the temperature metric (base 60): value `60 * 0.9 = 54` is critical,
and value `47 < 60 * 0.8 = 48` raises nothing. -/
theorem threshold_policy_evaluation_witness :
    EvaluateSeverity defaultMonitorConfig monitor_metric_t.temperature
        (GetMetricThreshold monitor_metric_t.temperature *
          defaultMonitorConfig.critical_threshold) = severity.critical ∧
    EvaluateSeverity defaultMonitorConfig monitor_metric_t.temperature 47 =
      severity.none :=
  ⟨(threshold_policy_evaluation defaultMonitorConfig defaultMonitorConfig
      monitor_metric_t.temperature 47 47).2.1,
   (threshold_policy_evaluation defaultMonitorConfig defaultMonitorConfig
      monitor_metric_t.temperature 47 47).2.2
      (by norm_num [defaultMonitorConfig])
      (by norm_num [defaultMonitorConfig, GetMetricThreshold])⟩

/-! ## Predictive scorer -/

/-- A stored health context with no samples. -/
def emptyHealthContext : usb_health_context_t :=
  { metrics := []
    drive_serial := 0
    drive_model := "Unknown"
    drive_manufacturer := "Unknown"
    first_seen := 0
    last_updated := 0 }

/-- C7: with empty sample history — whether no stored data at all, or a
stored context with zero metrics — `PredictUSBHealth` succeeds and returns
the conservative default: failure probability 0.1, 365 days remaining,
neither critical nor warning, and a no-data recommendation text.  The
result does not depend on the neural network. -/
theorem predict_empty_history_default (nnPredict : usb_health_metrics_t → ℚ)
    (context : usb_health_context_t) (h : context.metrics = []) :
    PredictUSBHealth nnPredict Option.none =
      some { failure_probability := 1/10
             days_remaining := 365
             algorithm_used := 0
             recommendation := "No historical data available. Drive appears healthy."
             is_critical := false
             is_warning := false } ∧
    PredictUSBHealth nnPredict (some context) =
      some { failure_probability := 1/10
             days_remaining := 365
             algorithm_used := 0
             recommendation := "No metrics available. Drive appears healthy."
             is_critical := false
             is_warning := false } := by
  constructor
  · rfl
  · simp [PredictUSBHealth, h]

/-- Witness for `predict_empty_history_default` with the constant-zero
network and a concrete empty context. -/
theorem predict_empty_history_default_witness :
    PredictUSBHealth (fun _ => 0) (some emptyHealthContext) =
      some { failure_probability := 1/10
             days_remaining := 365
             algorithm_used := 0
             recommendation := "No metrics available. Drive appears healthy."
             is_critical := false
             is_warning := false } :=
  (predict_empty_history_default (fun _ => 0) emptyHealthContext rfl).2

/-- The healthy scenario sample of the spec: no errors, no retries, no bad
sectors, 1000 writes, average speeds 25 and 20 MB/s, 500 hours of use. -/
def healthyScenarioSample : usb_health_metrics_t :=
  { total_writes := 1000
    total_reads := 0
    error_count := 0
    retry_count := 0
    bad_sectors := 0
    write_speed_avg := 25
    read_speed_avg := 20
    temperature_avg := 0
    power_cycles := 0
    hours_used := 500
    timestamp := 0 }

/-- C8: on the healthy scenario sample, the heuristic health score is
exactly 1 (a fortiori within tolerance of 1.0) and the estimated days
remaining is `365 * 2 = 730`. -/
theorem healthy_scenario_score :
    CalculateHealthScore healthyScenarioSample = 1 ∧
    EstimateDaysRemaining healthyScenarioSample = 730 := by
  constructor
  · norm_num [CalculateHealthScore, healthyScenarioSample]
  · norm_num [EstimateDaysRemaining, CalculateHealthScore, healthyScenarioSample]

/-! ## Alert log frame conditions -/

/-- C9: `AcknowledgeAlert i` fails and changes nothing when `i` is out of
range; when `i` is in range it succeeds and its only effect is setting the
acknowledged flag of alert `i` — drives, the engine flag, the alert count,
every other field of alert `i`, and every other alert are unchanged. -/
theorem acknowledge_alert_frame (ctx : monitor_context_t) (i : ℕ) :
    (ctx.alerts.length ≤ i → AcknowledgeAlert i ctx = (false, ctx)) ∧
    (∀ h : i < ctx.alerts.length,
      (AcknowledgeAlert i ctx).1 = true ∧
      (AcknowledgeAlert i ctx).2.drives = ctx.drives ∧
      (AcknowledgeAlert i ctx).2.is_monitoring = ctx.is_monitoring ∧
      (AcknowledgeAlert i ctx).2.alerts.length = ctx.alerts.length ∧
      (AcknowledgeAlert i ctx).2.alerts[i]? =
        some { ctx.alerts.get ⟨i, h⟩ with is_acknowledged := true } ∧
      ∀ j : ℕ, j ≠ i → (AcknowledgeAlert i ctx).2.alerts[j]? = ctx.alerts[j]?) := by
  constructor
  · intro hle
    unfold AcknowledgeAlert
    rw [dif_neg (by omega)]
  · intro h
    unfold AcknowledgeAlert
    rw [dif_pos h]
    refine ⟨rfl, rfl, rfl, ?_, ?_, ?_⟩
    · simp
    · simp [List.getElem?_set_self h]
    · intro j hj
      simp [List.getElem?_set_ne (Ne.symm hj)]

/-- Witness for `acknowledge_alert_frame` on a one-alert log: index 1 is
rejected with no change, index 0 succeeds. -/
theorem acknowledge_alert_frame_witness :
    AcknowledgeAlert 1
        { drives := [], alerts := [sampleAlert], is_monitoring := false } =
      (false, { drives := [], alerts := [sampleAlert], is_monitoring := false }) ∧
    (AcknowledgeAlert 0
        { drives := [], alerts := [sampleAlert], is_monitoring := false }).1 = true :=
  ⟨(acknowledge_alert_frame
      { drives := [], alerts := [sampleAlert], is_monitoring := false } 1).1
      (by decide),
   ((acknowledge_alert_frame
      { drives := [], alerts := [sampleAlert], is_monitoring := false } 0).2
      (by decide)).1⟩

/-! ## Stop of an unknown drive -/

theorem stopFirstMatching_eq_none (l : List drive_monitor_data_t) (p : String)
    (h : ∀ d ∈ l, d.drive_path ≠ p) : stopFirstMatching l p = none := by
  induction l with
  | nil => rfl
  | cons d rest ih =>
    have hd : (d.drive_path == p) = false := by
      simpa using h d (List.mem_cons_self d rest)
    simp only [stopFirstMatching, hd, Bool.false_eq_true, if_false]
    rw [ih (fun e he => h e (List.mem_cons_of_mem d he))]
    rfl

/-- C10: on an initialized engine, `StopDriveMonitoring` of a (non-NULL)
identifier not present in the registry returns failure and leaves the whole
context — registry records and count, alert log, and the engine's running
flag — exactly as before. -/
theorem stop_unknown_drive_noop (ctx : monitor_context_t) (p : String)
    (h : ∀ d ∈ ctx.drives, d.drive_path ≠ p) :
    StopDriveMonitoring p ctx = (false, ctx) := by
  unfold StopDriveMonitoring
  rw [stopFirstMatching_eq_none ctx.drives p h]

/-- Witness for `stop_unknown_drive_noop`: stopping "B" on a registry that
only holds "A" fails and changes nothing. -/
theorem stop_unknown_drive_noop_witness :
    StopDriveMonitoring "B" (StartDriveMonitoring "A" 0 initCtx).2 =
      (false, (StartDriveMonitoring "A" 0 initCtx).2) :=
  stop_unknown_drive_noop (StartDriveMonitoring "A" 0 initCtx).2 "B"
    (by
      intro d hd
      have hlist : (StartDriveMonitoring "A" 0 initCtx).2.drives =
          [initDriveData "A" 0] := rfl
      rw [hlist] at hd
      have : d = initDriveData "A" 0 := by
        simpa using hd
      rw [this]
      decide)

end RufusMonitor

